import Mathlib

/-!
Verification development for the custom-operator resolution and patch
protocol of the custom-layer tutorial notebook
(examples/neural_network_inference/tensorflow_converter/Tensorflow_1/custom_layer_examples.ipynb).

The notebook defines two user conversion callbacks (convert_topk and
convert_slice, embedded below from the source) and patches the produced
model spec in place.  The conversion driver, the callback registry
dispatch, the default placeholder synthesis, the spec patcher and the
artifact persistence are exercised through an external library and are
modelled here from the specification text, as marked on each definition.
Machine floats never enter any decided computation: the numeric constants
the notebook stores (k, begin, size) are integers, so numeric values are
embedded as Int.
-/

namespace TFConverter

/-- Modelled from the spec: the typed value of a custom-layer parameter is
exactly one of an integer, a boolean, or a float-list.  The spec mandates a
tagged union, not three independently settable fields. -/
inductive ParamValue where
  | intValue (v : Int)
  | boolValue (b : Bool)
  | floatListValue (xs : List Int)
deriving DecidableEq

/-- A constant value recorded in the constant table: the notebook reads
either a scalar (the value of k for top_k) or an integer array (begin and
size for slice). -/
inductive ConstValue where
  | scalar (v : Int)
  | arr (xs : List Int)
deriving DecidableEq

/-- The custom-layer proto message as used by the notebook: a class name,
a human-readable description, a mapping from parameter name to typed value,
and a list of raw numeric weight arrays. -/
structure CustomLayerParams where
  className : String
  description : String
  parameters : List (String × ParamValue)
  weights : List (List Int)
deriving DecidableEq

/-- The layer-type union of a neural-network layer: either a custom layer
carrying CustomLayerParams, or a standard layer identified by its kind
string (what WhichOneof reports in the notebook's inspector). -/
inductive LayerKind where
  | custom (p : CustomLayerParams)
  | builtin (kind : String)
deriving DecidableEq

/-- One layer of the target model: name, layer-type union, ordered input
references and ordered output references (the proto fields input/output
that the notebook's patch cell edits). -/
structure Layer where
  name : String
  kind : LayerKind
  input : List String
  output : List String
deriving DecidableEq

/-- An operator descriptor for one node of the frozen source graph:
identifier, type, ordered input references, ordered output references, and
attributes (tf_op.get_attr in the notebook). -/
structure OpDescriptor where
  name : String
  type : String
  inputs : List String
  outputs : List String
  attrs : List (String × ParamValue)
deriving DecidableEq

/-- The constant table: a mapping from input reference to literal value,
read by the callbacks through constant_inputs.get. -/
abbrev ConstTable := List (String × ConstValue)

/-- Association-list lookup by key, the map access used throughout. -/
def alookup {α : Type} : List (String × α) → String → Option α
  | [], _ => none
  | (k, v) :: rest, n => if k = n then some v else alookup rest n

/-- Lookup in the constant table (constant_inputs.get without default). -/
def lookupConst (t : ConstTable) (n : String) : Option ConstValue :=
  alookup t n

/-- Lookup of a parameter value by name in a parameter mapping. -/
def lookupParam (ps : List (String × ParamValue)) (n : String) : Option ParamValue :=
  alookup ps n

/-- Setting params[n] to v: replaces the value at an existing key, else
appends the new entry (protobuf map assignment semantics). -/
def setParam : List (String × ParamValue) → String → ParamValue → List (String × ParamValue)
  | [], n, v => [(n, v)]
  | (m, w) :: rest, n, v =>
      if m = n then (n, v) :: rest else (m, w) :: setParam rest n v

/-- Applying a list of parameter assignments in order. -/
def setParams (ps : List (String × ParamValue)) (sets : List (String × ParamValue)) :
    List (String × ParamValue) :=
  sets.foldl (fun acc nv => setParam acc nv.1 nv.2) ps

/-- A user conversion callback: receives the operator descriptor and the
constant table and produces the layer it attaches to the model, or fails.
The builder handle of the source is represented by the returned layer. -/
abbrev Callback := OpDescriptor → ConstTable → Except String Layer

/-- Modelled from the spec: the class name of a default placeholder is a
deterministic, injective function of the operator's type string; the
synthesis itself is inside the external converter, not under src/. -/
def classNameOfType (t : String) : String := t

/-- Modelled from the spec: the unsupported-operator diagnostic identifies
the operator's type and name. -/
def unsupportedMessage (op : OpDescriptor) : String :=
  "Unsupported Operator: type " ++ op.type ++ ", name " ++ op.name

/-- Modelled from the spec: the default placeholder synthesized when no
callback is registered — class name derived from the operator type, blank
description, empty parameter mapping, no weights, inputs and outputs
copied verbatim from the operator descriptor. -/
def defaultPlaceholder (op : OpDescriptor) : Layer :=
  ⟨op.name, LayerKind.custom ⟨classNameOfType op.type, "", [], []⟩, op.inputs, op.outputs⟩

/-- Modelled from the spec: the custom-layer resolver for one unsupported
operator.  Priority-ordered lookup: first the exact-name map, then the
type map; with neither registered, synthesize the default placeholder when
automatic insertion is enabled, otherwise fail with the
unsupported-operator diagnostic.  The resolver lives in the external
converter, not under src/. -/
def resolveOp (addCustomLayers : Bool)
    (nameCallbacks typeCallbacks : List (String × Callback))
    (op : OpDescriptor) (consts : ConstTable) : Except String Layer :=
  match alookup nameCallbacks op.name with
  | some cb => cb op consts
  | none =>
    match alookup typeCallbacks op.type with
    | some cb => cb op consts
    | none =>
      if addCustomLayers then Except.ok (defaultPlaceholder op)
      else Except.error (unsupportedMessage op)

/-- Removal indices normalized internally: duplicates dropped, then sorted
into descending order (highest index first, per the spec's patcher
contract). -/
def sortDescDedup (idxs : List Nat) : List Nat :=
  (List.insertionSort (· ≤ ·) idxs.dedup).reverse

/-- Modelled from the spec: the patcher's removal of slot indices from an
input or output reference list.  An out-of-range index fails loudly
(Patch Index Error) with the list unchanged; otherwise the normalized
indices are erased highest first. -/
def removeSlots (xs : List String) (idxs : List Nat) : Except String (List String) :=
  if idxs.all (fun i => i < xs.length) then
    Except.ok ((sortDescDedup idxs).foldl (fun l i => l.eraseIdx i) xs)
  else Except.error "Patch Index Error"

/-- Modelled from the spec: the spec patcher applied to one layer —
removes the given input and output slot indices and applies the parameter
assignments (parameters exist only on custom layers). -/
def patchLayer (L : Layer) (inputRemovals outputRemovals : List Nat)
    (sets : List (String × ParamValue)) : Except String Layer :=
  match removeSlots L.input inputRemovals, removeSlots L.output outputRemovals with
  | Except.ok ins, Except.ok outs =>
    match L.kind, sets with
    | LayerKind.custom p, _ =>
        Except.ok ⟨L.name,
          LayerKind.custom ⟨p.className, p.description, setParams p.parameters sets, p.weights⟩,
          ins, outs⟩
    | LayerKind.builtin b, [] => Except.ok ⟨L.name, LayerKind.builtin b, ins, outs⟩
    | LayerKind.builtin _, _ :: _ =>
        Except.error "parameters can only be set on a custom layer"
  | Except.error e, _ => Except.error e
  | _, Except.error e => Except.error e

/-- Attribute access on the operator descriptor (tf_op.get_attr). -/
def getAttr (op : OpDescriptor) (n : String) : Option ParamValue :=
  alookup op.attrs n

/-- constant_inputs.get(name, default) for a scalar constant, as used for
k in convert_topk; a non-scalar entry is a type error. -/
def constGetScalar (t : ConstTable) (n : String) (d : Int) : Except String Int :=
  match lookupConst t n with
  | some (ConstValue.scalar v) => Except.ok v
  | some (ConstValue.arr _) => Except.error "constant is not a scalar"
  | none => Except.ok d

/-- constant_inputs.get(name, default) for an array constant, as used for
begin and size in convert_slice; a scalar entry is a type error. -/
def constGetArr (t : ConstTable) (n : String) (d : List Int) : Except String (List Int) :=
  match lookupConst t n with
  | some (ConstValue.arr xs) => Except.ok xs
  | some (ConstValue.scalar _) => Except.error "constant is not an array"
  | none => Except.ok d

/-- The layer attached by convert_topk: className Top_K, the description
from the source, the sorted and k parameters, first input and first
output of the op. -/
def topkLayer (opName in0 out0 : String) (s : Bool) (k : Int) : Layer :=
  ⟨opName,
   LayerKind.custom ⟨"Top_K", "Custom layer that corresponds to the top_k TF op",
     setParams [] [("sorted", ParamValue.boolValue s), ("k", ParamValue.intValue k)], []⟩,
   [in0], [out0]⟩

/-- The notebook's conversion callback for the TopKV2 op: reads the sorted
attribute, reads k from the constant table with default 3, and attaches a
custom layer named after the op with the op's first input and first
output. -/
def convert_topk (op : OpDescriptor) (constant_inputs : ConstTable) : Except String Layer :=
  match getAttr op "sorted", op.inputs[0]?, op.inputs[1]?, op.outputs[0]? with
  | some (ParamValue.boolValue s), some in0, some kname, some out0 =>
    match constGetScalar constant_inputs kname 3 with
    | Except.ok k => Except.ok (topkLayer op.name in0 out0 s k)
    | Except.error e => Except.error e
  | _, _, _, _ =>
      Except.error "TopKV2 op must carry a boolean sorted attribute, two inputs and an output"

/-- The layer attached by convert_slice: className Slice, the description
from the source, no parameters, begin and size stored as two weight
arrays, first input and first output of the op. -/
def sliceLayer (opName in0 out0 : String) (b sz : List Int) : Layer :=
  ⟨opName,
   LayerKind.custom ⟨"Slice", "Custom layer that corresponds to the slice TF op", [], [b, sz]⟩,
   [in0], [out0]⟩

/-- The notebook's conversion callback for the Slice op: reads begin and
size from the constant table with default [0,0,0,0] each, stores them as
two weight arrays, and attaches a custom layer named after the op with the
op's first input and first output. -/
def convert_slice (op : OpDescriptor) (constant_inputs : ConstTable) : Except String Layer :=
  match op.inputs[0]?, op.inputs[1]?, op.inputs[2]?, op.outputs[0]? with
  | some in0, some bn, some sn, some out0 =>
    match constGetArr constant_inputs bn [0, 0, 0, 0],
          constGetArr constant_inputs sn [0, 0, 0, 0] with
    | Except.ok b, Except.ok sz => Except.ok (sliceLayer op.name in0 out0 b sz)
    | Except.error e, _ => Except.error e
    | _, Except.error e => Except.error e
  | _, _, _, _ => Except.error "Slice op must have three inputs and an output"

/-- The input references an operator exposes to the graph once the
constant-valued inputs have been folded out. -/
def exposedInputs (op : OpDescriptor) (consts : ConstTable) : List String :=
  op.inputs.filter (fun r => (lookupConst consts r).isNone)

/-! Modelled from the spec: artifact persistence.  save_spec and the
loader live in the external model library, not under src/; the spec only
fixes that the artifact is serialized in a fixed binary schema (a layer
list, each layer tagged by its layer-type union, custom layers carrying
class name, description, parameters and weights) and that a save/load
round trip reproduces the layer list exactly.  The fixed schema is
embedded as a token stream with length-prefixed fields. -/

/-- Encoding of an integer: a sign tag followed by a magnitude token. -/
def encInt : Int → List Nat
  | Int.ofNat n => [0, n]
  | Int.negSucc n => [1, n]

/-- Encoding of a boolean as one token. -/
def encBool (b : Bool) : List Nat := [b.toNat]

/-- Encoding of a string: character count, then one token per character. -/
def encString (s : String) : List Nat :=
  s.data.length :: s.data.map Char.toNat

/-- Length-prefixed encoding of a list given an element encoder. -/
def encListOf {α : Type} (enc : α → List Nat) (xs : List α) : List Nat :=
  xs.length :: (xs.map enc).flatten

/-- Encoding of an integer array (a weight array). -/
def encIntList (xs : List Int) : List Nat := encListOf encInt xs

/-- Encoding of a typed parameter value, tagged by its variant. -/
def encParamValue : ParamValue → List Nat
  | ParamValue.intValue v => 0 :: encInt v
  | ParamValue.boolValue b => 1 :: encBool b
  | ParamValue.floatListValue xs => 2 :: encIntList xs

/-- Encoding of one named parameter entry. -/
def encNamedParam (p : String × ParamValue) : List Nat :=
  encString p.1 ++ encParamValue p.2

/-- Encoding of the custom-layer proto message. -/
def encCustomParams (p : CustomLayerParams) : List Nat :=
  encString p.className ++ encString p.description
    ++ encListOf encNamedParam p.parameters ++ encListOf encIntList p.weights

/-- Encoding of the layer-type union, tagged by variant. -/
def encLayerKind : LayerKind → List Nat
  | LayerKind.custom p => 0 :: encCustomParams p
  | LayerKind.builtin s => 1 :: encString s

/-- Encoding of one layer. -/
def encLayer (L : Layer) : List Nat :=
  encString L.name ++ encLayerKind L.kind
    ++ encListOf encString L.input ++ encListOf encString L.output

/-- Modelled from the spec: persisting the target artifact writes the
length-prefixed layer list in the fixed schema. -/
def saveSpec (layers : List Layer) : List Nat :=
  encListOf encLayer layers

/-- Decoder for one leading token. -/
def decNat : List Nat → Option (Nat × List Nat)
  | [] => none
  | n :: r => some (n, r)

/-- Decoder for an integer. -/
def decInt : List Nat → Option (Int × List Nat)
  | 0 :: n :: r => some (Int.ofNat n, r)
  | 1 :: n :: r => some (Int.negSucc n, r)
  | _ => none

/-- Decoder for a boolean. -/
def decBool : List Nat → Option (Bool × List Nat)
  | 0 :: r => some (false, r)
  | 1 :: r => some (true, r)
  | _ => none

/-- Decoder for a fixed number of characters. -/
def decChars : Nat → List Nat → Option (List Char × List Nat)
  | 0, r => some ([], r)
  | _ + 1, [] => none
  | n + 1, t :: r =>
    match decChars n r with
    | some (cs, rest) => some (Char.ofNat t :: cs, rest)
    | none => none

/-- Decoder for a string. -/
def decString (s : List Nat) : Option (String × List Nat) :=
  match decNat s with
  | some (n, r) =>
    match decChars n r with
    | some (cs, rest) => some (String.mk cs, rest)
    | none => none
  | none => none

/-- Decoder for a fixed number of elements given an element decoder. -/
def decCount {α : Type} (dec : List Nat → Option (α × List Nat)) :
    Nat → List Nat → Option (List α × List Nat)
  | 0, r => some ([], r)
  | n + 1, r =>
    match dec r with
    | some (x, r₁) =>
      match decCount dec n r₁ with
      | some (xs, r₂) => some (x :: xs, r₂)
      | none => none
    | none => none

/-- Decoder for a length-prefixed list. -/
def decListOf {α : Type} (dec : List Nat → Option (α × List Nat)) (s : List Nat) :
    Option (List α × List Nat) :=
  match decNat s with
  | some (n, r) => decCount dec n r
  | none => none

/-- Decoder for an integer array. -/
def decIntList (s : List Nat) : Option (List Int × List Nat) :=
  decListOf decInt s

/-- Decoder for a typed parameter value. -/
def decParamValue : List Nat → Option (ParamValue × List Nat)
  | 0 :: r =>
    match decInt r with
    | some (v, rest) => some (ParamValue.intValue v, rest)
    | none => none
  | 1 :: r =>
    match decBool r with
    | some (b, rest) => some (ParamValue.boolValue b, rest)
    | none => none
  | 2 :: r =>
    match decIntList r with
    | some (xs, rest) => some (ParamValue.floatListValue xs, rest)
    | none => none
  | _ => none

/-- Decoder for one named parameter entry. -/
def decNamedParam (s : List Nat) : Option ((String × ParamValue) × List Nat) :=
  match decString s with
  | some (n, r) =>
    match decParamValue r with
    | some (v, rest) => some ((n, v), rest)
    | none => none
  | none => none

/-- Decoder for the custom-layer proto message. -/
def decCustomParams (s : List Nat) : Option (CustomLayerParams × List Nat) :=
  match decString s with
  | some (cn, r₁) =>
    match decString r₁ with
    | some (ds, r₂) =>
      match decListOf decNamedParam r₂ with
      | some (ps, r₃) =>
        match decListOf decIntList r₃ with
        | some (ws, r₄) => some (⟨cn, ds, ps, ws⟩, r₄)
        | none => none
      | none => none
    | none => none
  | none => none

/-- Decoder for the layer-type union. -/
def decLayerKind : List Nat → Option (LayerKind × List Nat)
  | 0 :: r =>
    match decCustomParams r with
    | some (p, rest) => some (LayerKind.custom p, rest)
    | none => none
  | 1 :: r =>
    match decString r with
    | some (s, rest) => some (LayerKind.builtin s, rest)
    | none => none
  | _ => none

/-- Decoder for one layer. -/
def decLayer (s : List Nat) : Option (Layer × List Nat) :=
  match decString s with
  | some (nm, r₁) =>
    match decLayerKind r₁ with
    | some (k, r₂) =>
      match decListOf decString r₂ with
      | some (ins, r₃) =>
        match decListOf decString r₃ with
        | some (outs, r₄) => some (⟨nm, k, ins, outs⟩, r₄)
        | none => none
      | none => none
    | none => none
  | none => none

/-- Modelled from the spec: reloading the persisted artifact decodes the
layer list and requires the stream to be fully consumed. -/
def loadSpec (s : List Nat) : Option (List Layer) :=
  match decListOf decLayer s with
  | some (ls, []) => some ls
  | _ => none

/-! Round-trip lemmas for the persistence schema. -/

lemma decInt_enc (x : Int) (r : List Nat) : decInt (encInt x ++ r) = some (x, r) := by
  cases x <;> rfl

lemma decBool_enc (b : Bool) (r : List Nat) : decBool (encBool b ++ r) = some (b, r) := by
  cases b <;> rfl

lemma decChars_enc (cs : List Char) (r : List Nat) :
    decChars cs.length (cs.map Char.toNat ++ r) = some (cs, r) := by
  induction cs with
  | nil => rfl
  | cons c cs ih => simp [decChars, ih, Char.ofNat_toNat]

lemma decString_enc (s : String) (r : List Nat) :
    decString (encString s ++ r) = some (s, r) := by
  cases s with
  | mk data => simp [decString, encString, decNat, decChars_enc]

lemma decCount_enc {α : Type} (dec : List Nat → Option (α × List Nat)) (enc : α → List Nat)
    (H : ∀ x r, dec (enc x ++ r) = some (x, r)) (xs : List α) (r : List Nat) :
    decCount dec xs.length ((xs.map enc).flatten ++ r) = some (xs, r) := by
  induction xs with
  | nil => rfl
  | cons x xs ih => simp [decCount, List.append_assoc, H, ih]

lemma decListOf_enc {α : Type} (dec : List Nat → Option (α × List Nat)) (enc : α → List Nat)
    (H : ∀ x r, dec (enc x ++ r) = some (x, r)) (xs : List α) (r : List Nat) :
    decListOf dec (encListOf enc xs ++ r) = some (xs, r) := by
  simp [decListOf, encListOf, decNat, decCount_enc dec enc H]

lemma decIntList_enc (xs : List Int) (r : List Nat) :
    decIntList (encIntList xs ++ r) = some (xs, r) :=
  decListOf_enc decInt encInt decInt_enc xs r

lemma decParamValue_enc (v : ParamValue) (r : List Nat) :
    decParamValue (encParamValue v ++ r) = some (v, r) := by
  cases v with
  | intValue x => simp [encParamValue, decParamValue, decInt_enc]
  | boolValue b => cases b <;> rfl
  | floatListValue xs => simp [encParamValue, decParamValue, decIntList_enc]

lemma decNamedParam_enc (p : String × ParamValue) (r : List Nat) :
    decNamedParam (encNamedParam p ++ r) = some (p, r) := by
  simp [encNamedParam, decNamedParam, List.append_assoc, decString_enc, decParamValue_enc]

lemma decCustomParams_enc (p : CustomLayerParams) (r : List Nat) :
    decCustomParams (encCustomParams p ++ r) = some (p, r) := by
  cases p with
  | mk cn ds ps ws =>
    simp [encCustomParams, decCustomParams, List.append_assoc, decString_enc,
      decListOf_enc decNamedParam encNamedParam decNamedParam_enc,
      decListOf_enc decIntList encIntList decIntList_enc]

lemma decLayerKind_enc (k : LayerKind) (r : List Nat) :
    decLayerKind (encLayerKind k ++ r) = some (k, r) := by
  cases k with
  | custom p => simp [encLayerKind, decLayerKind, decCustomParams_enc]
  | builtin s => simp [encLayerKind, decLayerKind, decString_enc]

lemma decLayer_enc (L : Layer) (r : List Nat) :
    decLayer (encLayer L ++ r) = some (L, r) := by
  cases L with
  | mk nm k ins outs =>
    simp [encLayer, decLayer, List.append_assoc, decString_enc, decLayerKind_enc,
      decListOf_enc decString encString decString_enc]

/-! Helper lemmas for the spec patcher. -/

lemma all_eq_of_perm {l₁ l₂ : List Nat} (p : l₁.Perm l₂) (f : Nat → Bool) :
    l₁.all f = l₂.all f := by
  rw [Bool.eq_iff_iff, List.all_eq_true, List.all_eq_true]
  constructor
  · intro h x hx
    exact h x (p.mem_iff.mpr hx)
  · intro h x hx
    exact h x (p.mem_iff.mp hx)

lemma sortDescDedup_eq_of_perm {idxs₁ idxs₂ : List Nat} (h : idxs₁.Perm idxs₂) :
    sortDescDedup idxs₁ = sortDescDedup idxs₂ := by
  unfold sortDescDedup
  refine congrArg List.reverse ?_
  have hs₁ : List.Sorted (fun a b : Nat => a ≤ b) (List.insertionSort (· ≤ ·) idxs₁.dedup) :=
    List.sorted_insertionSort _ _
  have hs₂ : List.Sorted (fun a b : Nat => a ≤ b) (List.insertionSort (· ≤ ·) idxs₂.dedup) :=
    List.sorted_insertionSort _ _
  exact List.eq_of_perm_of_sorted
    ((List.perm_insertionSort _ _).trans (h.dedup.trans (List.perm_insertionSort _ _).symm))
    hs₁ hs₂

lemma removeSlots_eq_of_perm (xs : List String) {idxs₁ idxs₂ : List Nat}
    (h : idxs₁.Perm idxs₂) : removeSlots xs idxs₁ = removeSlots xs idxs₂ := by
  unfold removeSlots
  rw [all_eq_of_perm h, sortDescDedup_eq_of_perm h]

lemma foldl_eraseIdx_sublist (idxs : List Nat) (xs : List String) :
    List.Sublist (idxs.foldl (fun l i => l.eraseIdx i) xs) xs := by
  induction idxs generalizing xs with
  | nil => exact List.Sublist.refl xs
  | cons i idxs ih =>
    exact (ih (xs.eraseIdx i)).trans (List.eraseIdx_sublist xs i)

lemma removeSlots_ok_sublist {xs ys : List String} {idxs : List Nat}
    (h : removeSlots xs idxs = Except.ok ys) : List.Sublist ys xs := by
  unfold removeSlots at h
  by_cases hc : idxs.all (fun i => i < xs.length)
  · rw [if_pos hc] at h
    cases h
    exact foldl_eraseIdx_sublist _ xs
  · rw [if_neg hc] at h
    cases h

/-! Concrete fixtures, taken from the notebook's three example graphs. -/

/-- The Tile op of the first example graph (no parameters). -/
def opTile : OpDescriptor :=
  ⟨"UnitNorm/Tile", "Tile", ["UnitNorm/Sum:0", "UnitNorm/Tile/multiples:0"],
   ["UnitNorm/Tile:0"], []⟩

/-- The TopKV2 op of the second example graph: name output, two inputs
(the softmax output and the constant k), two outputs, sorted attribute
false. -/
def opTopK : OpDescriptor :=
  ⟨"output", "TopKV2", ["Softmax:0", "output/k:0"], ["output:0", "output:1"],
   [("sorted", ParamValue.boolValue false)]⟩

/-- Constant table for the TopKV2 example: k is the constant 3. -/
def constsTopK : ConstTable := [("output/k:0", ConstValue.scalar 3)]

/-- The Slice op of the third example graph: name output, three inputs
(the conv output and the constant begin and size arrays), one output. -/
def opSlice : OpDescriptor :=
  ⟨"output", "Slice", ["Conv2D:0", "output/begin:0", "output/size:0"], ["output:0"], []⟩

/-- Constant table for the Slice example: begin is [0,1,1,1] and size is
[1,2,2,2]. -/
def constsSlice : ConstTable :=
  [("output/begin:0", ConstValue.arr [0, 1, 1, 1]),
   ("output/size:0", ConstValue.arr [1, 2, 2, 2])]

/-- C1: the resolver's lookup is priority ordered.  A callback registered
under the operator's exact name is invoked in preference to any callback
registered under the operator's type; with no name-keyed callback the
type-keyed callback is invoked; with neither, the default placeholder
strategy applies (placeholder when automatic insertion is enabled, the
unsupported-operator failure otherwise). -/
theorem resolver_name_precedence (auto : Bool)
    (nameCallbacks typeCallbacks : List (String × Callback))
    (op : OpDescriptor) (consts : ConstTable) :
    (∀ cb : Callback, alookup nameCallbacks op.name = some cb →
        resolveOp auto nameCallbacks typeCallbacks op consts = cb op consts)
    ∧ (alookup nameCallbacks op.name = none →
        ∀ cb : Callback, alookup typeCallbacks op.type = some cb →
          resolveOp auto nameCallbacks typeCallbacks op consts = cb op consts)
    ∧ (alookup nameCallbacks op.name = none → alookup typeCallbacks op.type = none →
        resolveOp auto nameCallbacks typeCallbacks op consts =
          if auto then Except.ok (defaultPlaceholder op)
          else Except.error (unsupportedMessage op)) := by
  refine ⟨?_, ?_, ?_⟩
  · intro cb h
    simp [resolveOp, h]
  · intro h cb h'
    simp [resolveOp, h, h']
  · intro h h'
    simp [resolveOp, h, h']

/-- Witness for C1 on the notebook's TopKV2 op, whose name is output and
whose type is TopKV2: with convert_slice registered under the name and
convert_topk under the type, the name-keyed callback wins; with only the
type key, the type-keyed callback runs; with no registry and automatic
insertion disabled, the default strategy applies. -/
theorem resolver_name_precedence_witness :
    resolveOp true [("output", convert_slice)] [("TopKV2", convert_topk)] opTopK constsTopK
        = convert_slice opTopK constsTopK
    ∧ resolveOp true [] [("TopKV2", convert_topk)] opTopK constsTopK
        = convert_topk opTopK constsTopK
    ∧ resolveOp false [] [] opTile []
        = if false then Except.ok (defaultPlaceholder opTile)
          else Except.error (unsupportedMessage opTile) :=
  ⟨(resolver_name_precedence true [("output", convert_slice)] [("TopKV2", convert_topk)]
      opTopK constsTopK).1 convert_slice (by rfl),
   (resolver_name_precedence true [] [("TopKV2", convert_topk)]
      opTopK constsTopK).2.1 (by rfl) convert_topk (by rfl),
   (resolver_name_precedence false [] [] opTile []).2.2 (by rfl) (by rfl)⟩

/-- C2: with automatic insertion disabled and no callback registered for
the operator, resolution fails with the unsupported-operator diagnostic
identifying the operator's type and name, and never produces a layer for
that operator. -/
theorem unsupported_operator_aborts
    (nameCallbacks typeCallbacks : List (String × Callback))
    (op : OpDescriptor) (consts : ConstTable)
    (h₁ : alookup nameCallbacks op.name = none)
    (h₂ : alookup typeCallbacks op.type = none) :
    resolveOp false nameCallbacks typeCallbacks op consts
        = Except.error (unsupportedMessage op)
    ∧ unsupportedMessage op
        = "Unsupported Operator: type " ++ op.type ++ ", name " ++ op.name
    ∧ ∀ L : Layer, resolveOp false nameCallbacks typeCallbacks op consts ≠ Except.ok L := by
  have hmain : resolveOp false nameCallbacks typeCallbacks op consts
      = Except.error (unsupportedMessage op) := by
    simp [resolveOp, h₁, h₂]
  refine ⟨hmain, rfl, ?_⟩
  intro L hL
  rw [hmain] at hL
  cases hL

/-- Witness for C2 on the notebook's first example: converting the Tile
op with no callbacks and automatic insertion disabled errors out and
yields no layer. -/
theorem unsupported_operator_aborts_witness :
    resolveOp false [] [] opTile [] = Except.error (unsupportedMessage opTile)
    ∧ resolveOp false [] [] opTile [] ≠ Except.ok (defaultPlaceholder opTile) :=
  ⟨(unsupported_operator_aborts [] [] opTile [] rfl rfl).1,
   (unsupported_operator_aborts [] [] opTile [] rfl rfl).2.2 (defaultPlaceholder opTile)⟩

/-- C3: with no registered callback and automatic insertion enabled, the
resolver emits exactly one placeholder layer: class name an injective
deterministic function of the operator's type, empty parameter mapping,
blank description, no weights, inputs and outputs copied verbatim from
the operator descriptor. -/
theorem auto_insert_default_placeholder
    (nameCallbacks typeCallbacks : List (String × Callback))
    (op : OpDescriptor) (consts : ConstTable)
    (h₁ : alookup nameCallbacks op.name = none)
    (h₂ : alookup typeCallbacks op.type = none) :
    resolveOp true nameCallbacks typeCallbacks op consts
        = Except.ok (defaultPlaceholder op)
    ∧ defaultPlaceholder op =
        ⟨op.name, LayerKind.custom ⟨classNameOfType op.type, "", [], []⟩,
         op.inputs, op.outputs⟩
    ∧ Function.Injective classNameOfType := by
  refine ⟨?_, rfl, fun a b h => h⟩
  simp [resolveOp, h₁, h₂]

/-- Witness for C3 on the notebook's first example: converting the Tile
op with add_custom_layers enabled and no callbacks yields exactly the
default placeholder. -/
theorem auto_insert_default_placeholder_witness :
    resolveOp true [] [] opTile [] = Except.ok (defaultPlaceholder opTile)
    ∧ ("Tile" : String) = "Tile" :=
  ⟨(auto_insert_default_placeholder [] [] opTile [] rfl rfl).1,
   (auto_insert_default_placeholder [] [] opTile [] rfl rfl).2.2
     (show classNameOfType "Tile" = classNameOfType "Tile" from rfl)⟩

/-- C4: slot removal is caller-order-independent.  For every layer and
every two orderings of the same removal indices the patcher produces the
same result, because the indices are normalized (deduplicated and sorted
descending) internally; and removing index set containing only 1 from a
three-input layer [a, b, c] yields [a, c]. -/
theorem patch_removal_order_independent (L : Layer) (idxs₁ idxs₂ : List Nat)
    (h : idxs₁.Perm idxs₂) :
    patchLayer L idxs₁ [] [] = patchLayer L idxs₂ [] []
    ∧ ∀ a b c : String, removeSlots [a, b, c] [1] = Except.ok [a, c] := by
  constructor
  · unfold patchLayer
    rw [removeSlots_eq_of_perm L.input h]
  · intro a b c
    rfl

/-- Witness for C4: removing indices [0, 1] and [1, 0] from the Tile
placeholder's two inputs agree, and removing index 1 from [a, b, c]
yields [a, c]. -/
theorem patch_removal_order_independent_witness :
    patchLayer (defaultPlaceholder opTile) [0, 1] [] []
        = patchLayer (defaultPlaceholder opTile) [1, 0] [] []
    ∧ removeSlots ["a", "b", "c"] [1] = Except.ok ["a", "c"] :=
  ⟨(patch_removal_order_independent (defaultPlaceholder opTile) [0, 1] [1, 0] (by decide)).1,
   (patch_removal_order_independent (defaultPlaceholder opTile) [0, 1] [1, 0]
      (by decide)).2 "a" "b" "c"⟩

/-- C5: reapplying the patcher with input and output removal indices
that no longer exist in the layer's input and output lists is a no-op
(for empty index sets) or an explicit Patch Index Error; it never
removes additional input or output slots and never corrupts either
list. -/
theorem patch_reapply_noop_or_error (L : Layer) (inIdxns outIdxns : List Nat)
    (hin : ∀ i ∈ inIdxns, L.input.length ≤ i)
    (hout : ∀ i ∈ outIdxns, L.output.length ≤ i) :
    patchLayer L inIdxns outIdxns [] = Except.ok L
    ∨ patchLayer L inIdxns outIdxns [] = Except.error "Patch Index Error" := by
  cases inIdxns with
  | nil =>
    cases outIdxns with
    | nil =>
      left
      obtain ⟨nm, k, ins, outs⟩ := L
      cases k <;> rfl
    | cons j rest =>
      right
      have hlen : ¬ (j < L.output.length) := by
        have := hout j (List.mem_cons_self j rest)
        omega
      simp [patchLayer, removeSlots, List.all_cons, hlen]
  | cons i rest =>
    right
    have hlen : ¬ (i < L.input.length) := by
      have := hin i (List.mem_cons_self i rest)
      omega
    simp [patchLayer, removeSlots, List.all_cons, hlen]

/-- Witness for C5: after the Tile placeholder's two inputs and one
output, input index 5 and output index 3 no longer exist, and the
patcher refuses them rather than corrupting either list. -/
theorem patch_reapply_noop_or_error_witness :
    patchLayer (defaultPlaceholder opTile) [5] [3] [] = Except.ok (defaultPlaceholder opTile)
    ∨ patchLayer (defaultPlaceholder opTile) [5] [3] []
        = Except.error "Patch Index Error" :=
  patch_reapply_noop_or_error (defaultPlaceholder opTile) [5] [3] (by decide) (by decide)

/-- Whether a parameter value is the integer variant. -/
def isIntValue : ParamValue → Bool
  | ParamValue.intValue _ => true
  | _ => false

/-- Whether a parameter value is the boolean variant. -/
def isBoolValue : ParamValue → Bool
  | ParamValue.boolValue _ => true
  | _ => false

/-- Whether a parameter value is the float-list variant. -/
def isFloatListValue : ParamValue → Bool
  | ParamValue.floatListValue _ => true
  | _ => false

/-- How many of the three variants a parameter value holds. -/
def variantCount (v : ParamValue) : Nat :=
  (cond (isIntValue v) 1 0) + (cond (isBoolValue v) 1 0) + (cond (isFloatListValue v) 1 0)

/-- C6: parameter values form a tagged union.  Setting a parameter stores
the given value under its name, and every value reachable by lookup after
a set holds exactly one of the integer, boolean and float-list variants —
never two at once. -/
theorem param_value_tagged_union (ps : List (String × ParamValue)) (n n' : String)
    (v : ParamValue) :
    lookupParam (setParam ps n v) n = some v
    ∧ (∀ w : ParamValue, lookupParam (setParam ps n v) n' = some w → variantCount w = 1) := by
  constructor
  · induction ps with
    | nil => simp [setParam, lookupParam, alookup]
    | cons p rest ih =>
      obtain ⟨m, w⟩ := p
      by_cases hm : m = n
      · simp [setParam, hm, lookupParam, alookup]
      · simp [setParam, hm, lookupParam, alookup] at ih ⊢
        exact ih
  · intro w _
    cases w <;> rfl

/-- Witness for C6 on the notebook's patch cell values: after setting k
to integer 3 next to the boolean sorted parameter, looking k up returns
the integer variant, and that value holds exactly one variant. -/
theorem param_value_tagged_union_witness :
    lookupParam (setParam [("sorted", ParamValue.boolValue false)] "k" (ParamValue.intValue 3))
        "k" = some (ParamValue.intValue 3)
    ∧ variantCount (ParamValue.intValue 3) = 1 :=
  ⟨(param_value_tagged_union [("sorted", ParamValue.boolValue false)] "k" "k"
      (ParamValue.intValue 3)).1,
   (param_value_tagged_union [("sorted", ParamValue.boolValue false)] "k" "k"
      (ParamValue.intValue 3)).2 (ParamValue.intValue 3)
     (param_value_tagged_union [("sorted", ParamValue.boolValue false)] "k" "k"
       (ParamValue.intValue 3)).1⟩

/-- C7: scenario B.  For a graph whose TopKV2-equivalent operator has the
sorted attribute false and whose second input is the constant 3, with
convert_topk registered under the operator type, the resolver produces a
layer with exactly one input, exactly one output, and exactly the two
parameter values k = 3 (integer) and sorted = false (boolean). -/
theorem topk_scenario_b (nm a kn o1 o2 : String) (attrs : List (String × ParamValue))
    (consts : ConstTable)
    (hs : alookup attrs "sorted" = some (ParamValue.boolValue false))
    (hk : lookupConst consts kn = some (ConstValue.scalar 3)) :
    resolveOp true [] [("TopKV2", convert_topk)]
        ⟨nm, "TopKV2", [a, kn], [o1, o2], attrs⟩ consts
      = Except.ok (topkLayer nm a o1 false 3)
    ∧ topkLayer nm a o1 false 3 =
        ⟨nm, LayerKind.custom ⟨"Top_K", "Custom layer that corresponds to the top_k TF op",
          [("sorted", ParamValue.boolValue false), ("k", ParamValue.intValue 3)], []⟩,
         [a], [o1]⟩ := by
  constructor
  · simp [resolveOp, alookup, convert_topk, getAttr, hs, constGetScalar, hk]
  · rfl

/-- Witness for C7 on the notebook's TopKV2 example graph. -/
theorem topk_scenario_b_witness :
    resolveOp true [] [("TopKV2", convert_topk)] opTopK constsTopK
      = Except.ok (topkLayer "output" "Softmax:0" "output:0" false 3)
    ∧ topkLayer "output" "Softmax:0" "output:0" false 3 =
        ⟨"output",
         LayerKind.custom ⟨"Top_K", "Custom layer that corresponds to the top_k TF op",
           [("sorted", ParamValue.boolValue false), ("k", ParamValue.intValue 3)], []⟩,
         ["Softmax:0"], ["output:0"]⟩ :=
  ⟨(topk_scenario_b "output" "Softmax:0" "output/k:0" "output:0" "output:1"
      [("sorted", ParamValue.boolValue false)] constsTopK rfl rfl).1,
   (topk_scenario_b "output" "Softmax:0" "output/k:0" "output:0" "output:1"
      [("sorted", ParamValue.boolValue false)] constsTopK rfl rfl).2⟩

/-- C10: the notebook's callbacks substitute fixed defaults for constant
inputs that are absent from the constant table instead of failing:
convert_topk defaults k to 3, convert_slice defaults the begin and size
weight arrays to [0,0,0,0] each, and in both cases a complete custom
layer is still attached. -/
theorem constant_default_fallback :
    (∀ (op : OpDescriptor) (consts : ConstTable) (s : Bool) (in0 kname out0 : String),
        getAttr op "sorted" = some (ParamValue.boolValue s) →
        op.inputs[0]? = some in0 → op.inputs[1]? = some kname →
        op.outputs[0]? = some out0 →
        lookupConst consts kname = none →
        convert_topk op consts = Except.ok (topkLayer op.name in0 out0 s 3))
    ∧ (∀ (op : OpDescriptor) (consts : ConstTable) (in0 bn sn out0 : String),
        op.inputs[0]? = some in0 → op.inputs[1]? = some bn → op.inputs[2]? = some sn →
        op.outputs[0]? = some out0 →
        lookupConst consts bn = none → lookupConst consts sn = none →
        convert_slice op consts
          = Except.ok (sliceLayer op.name in0 out0 [0, 0, 0, 0] [0, 0, 0, 0])) := by
  constructor
  · intro op consts s in0 kname out0 ha h0 h1 ho hc
    simp [convert_topk, ha, h0, h1, ho, constGetScalar, hc]
  · intro op consts in0 bn sn out0 h0 h1 h2 ho hb hs
    simp [convert_slice, h0, h1, h2, ho, constGetArr, hb, hs]

/-- Witness for C10: running both callbacks on the notebook's ops with an
empty constant table attaches the layers with the default values. -/
theorem constant_default_fallback_witness :
    convert_topk opTopK [] = Except.ok (topkLayer "output" "Softmax:0" "output:0" false 3)
    ∧ convert_slice opSlice []
        = Except.ok (sliceLayer "output" "Conv2D:0" "output:0" [0, 0, 0, 0] [0, 0, 0, 0]) :=
  ⟨constant_default_fallback.1 opTopK [] false "Softmax:0" "output/k:0" "output:0"
      rfl rfl rfl rfl rfl,
   constant_default_fallback.2 opSlice [] "Conv2D:0" "output/begin:0" "output/size:0"
      "output:0" rfl rfl rfl rfl rfl rfl⟩

/-- C8: persisting a target artifact and reloading it reproduces the
identical layer list — every layer's name, type union (including class
name, description, parameters and weights of custom layers), inputs and
outputs — for every layer list producible by conversion and patching. -/
theorem save_load_roundtrip (layers : List Layer) :
    loadSpec (saveSpec layers) = some layers := by
  have h := decListOf_enc decLayer encLayer decLayer_enc layers []
  rw [List.append_nil] at h
  simp [loadSpec, saveSpec, h]

lemma getElem0_head_mem {xs : List String} {a : String} (h : xs[0]? = some a) :
    xs.headD "" = a ∧ a ∈ xs := by
  cases xs with
  | nil => exact Option.noConfusion h
  | cons x t =>
    have hx : x = a := by simpa using h
    subst hx
    exact ⟨rfl, List.mem_cons_self x t⟩

lemma convert_topk_ok_io {op : OpDescriptor} {consts : ConstTable} {L : Layer}
    (h : convert_topk op consts = Except.ok L) :
    ∃ in0 out0, op.inputs[0]? = some in0 ∧ op.outputs[0]? = some out0
      ∧ L.input = [in0] ∧ L.output = [out0] := by
  unfold convert_topk at h
  split at h
  · split at h
    · injection h with h
      subst h
      exact ⟨_, _, by assumption, by assumption, rfl, rfl⟩
    · exact Except.noConfusion h
  · exact Except.noConfusion h

lemma convert_slice_ok_io {op : OpDescriptor} {consts : ConstTable} {L : Layer}
    (h : convert_slice op consts = Except.ok L) :
    ∃ in0 out0, op.inputs[0]? = some in0 ∧ op.outputs[0]? = some out0
      ∧ L.input = [in0] ∧ L.output = [out0] := by
  unfold convert_slice at h
  split at h
  · split at h
    · injection h with h
      subst h
      exact ⟨_, _, by assumption, by assumption, rfl, rfl⟩
    · exact Except.noConfusion h
    · exact Except.noConfusion h
  · exact Except.noConfusion h

/-- C9: declared placeholder I/O stays consistent with the references
actually used.  The layers attached by the notebook's callbacks declare
inputs that are a subset of the operator's inputs remaining after the
constant-valued inputs are folded out, and outputs that are a subset of
the operator's outputs; and any patch of a default placeholder only
shrinks the verbatim-copied I/O lists, keeping them subsets of the
operator's. -/
theorem placeholder_io_subset :
    (∀ (op : OpDescriptor) (consts : ConstTable) (L : Layer),
        convert_topk op consts = Except.ok L →
        lookupConst consts (op.inputs.headD "") = none →
        L.input ⊆ exposedInputs op consts ∧ L.output ⊆ op.outputs)
    ∧ (∀ (op : OpDescriptor) (consts : ConstTable) (L : Layer),
        convert_slice op consts = Except.ok L →
        lookupConst consts (op.inputs.headD "") = none →
        L.input ⊆ exposedInputs op consts ∧ L.output ⊆ op.outputs)
    ∧ (∀ (op : OpDescriptor) (inR outR : List Nat) (sets : List (String × ParamValue))
        (L : Layer),
        patchLayer (defaultPlaceholder op) inR outR sets = Except.ok L →
        L.input ⊆ op.inputs ∧ L.output ⊆ op.outputs) := by
  refine ⟨?_, ?_, ?_⟩
  · intro op consts L h hfold
    obtain ⟨in0, out0, hin, hout, hLin, hLout⟩ := convert_topk_ok_io h
    obtain ⟨hhead, hmem⟩ := getElem0_head_mem hin
    obtain ⟨-, homem⟩ := getElem0_head_mem hout
    rw [hhead] at hfold
    constructor
    · rw [hLin]
      intro x hx
      rw [List.mem_singleton] at hx
      subst hx
      exact List.mem_filter.mpr ⟨hmem, by simp [lookupConst] at hfold ⊢; simp [hfold]⟩
    · rw [hLout]
      intro x hx
      rw [List.mem_singleton] at hx
      subst hx
      exact homem
  · intro op consts L h hfold
    obtain ⟨in0, out0, hin, hout, hLin, hLout⟩ := convert_slice_ok_io h
    obtain ⟨hhead, hmem⟩ := getElem0_head_mem hin
    obtain ⟨-, homem⟩ := getElem0_head_mem hout
    rw [hhead] at hfold
    constructor
    · rw [hLin]
      intro x hx
      rw [List.mem_singleton] at hx
      subst hx
      exact List.mem_filter.mpr ⟨hmem, by simp [lookupConst] at hfold ⊢; simp [hfold]⟩
    · rw [hLout]
      intro x hx
      rw [List.mem_singleton] at hx
      subst hx
      exact homem
  · intro op inR outR sets L h
    unfold patchLayer at h
    split at h
    · rename_i ins outs hins houts
      simp only [defaultPlaceholder] at h
      injection h with h
      subst h
      exact ⟨(removeSlots_ok_sublist hins).subset, (removeSlots_ok_sublist houts).subset⟩
    · exact Except.noConfusion h
    · exact Except.noConfusion h

/-- Witness for C9 on the notebook's examples: the TopKV2 and Slice
layers with their constant tables, and a patched Tile placeholder. -/
theorem placeholder_io_subset_witness :
    ((topkLayer "output" "Softmax:0" "output:0" false 3).input
        ⊆ exposedInputs opTopK constsTopK
      ∧ (topkLayer "output" "Softmax:0" "output:0" false 3).output ⊆ opTopK.outputs)
    ∧ ((sliceLayer "output" "Conv2D:0" "output:0" [0, 1, 1, 1] [1, 2, 2, 2]).input
        ⊆ exposedInputs opSlice constsSlice
      ∧ (sliceLayer "output" "Conv2D:0" "output:0" [0, 1, 1, 1] [1, 2, 2, 2]).output
        ⊆ opSlice.outputs)
    ∧ ((⟨"UnitNorm/Tile", LayerKind.custom ⟨"Tile", "", [], []⟩,
          ["UnitNorm/Sum:0"], ["UnitNorm/Tile:0"]⟩ : Layer).input ⊆ opTile.inputs
      ∧ (⟨"UnitNorm/Tile", LayerKind.custom ⟨"Tile", "", [], []⟩,
          ["UnitNorm/Sum:0"], ["UnitNorm/Tile:0"]⟩ : Layer).output ⊆ opTile.outputs) :=
  ⟨placeholder_io_subset.1 opTopK constsTopK
      (topkLayer "output" "Softmax:0" "output:0" false 3) (by rfl) (by rfl),
   placeholder_io_subset.2.1 opSlice constsSlice
      (sliceLayer "output" "Conv2D:0" "output:0" [0, 1, 1, 1] [1, 2, 2, 2]) (by rfl) (by rfl),
   placeholder_io_subset.2.2 opTile [1] [] []
      ⟨"UnitNorm/Tile", LayerKind.custom ⟨"Tile", "", [], []⟩,
       ["UnitNorm/Sum:0"], ["UnitNorm/Tile:0"]⟩ (by rfl)⟩

end TFConverter
